import Mathlib

/-
  Shallow embedding of the client-side data-fetch and cache layer of the
  stock dashboard repository:

  * `src/frontend/src/services/stockService.ts` — `getStockChart` and its
    inline per-point validation filter;
  * the `useStockChart` hook — envelope check and re-validation;
  * `src/src/services/api.ts` — the axios response interceptor's timeout
    retry and the `retryApiRequest` helper;
  * `src/frontend/src/components/stock/TopStocksGrid.tsx` — the in-memory
    cache (`isCacheValid`, `handleIndexChange`, `handleManualRefresh`,
    `fetchStocks`).

  JavaScript values that flow through the chart pipeline are modelled by
  `JsonVal`; numbers are rationals (NaN and -0 are outside the model, they
  never occur in the scenarios under study).
-/

/-- A JavaScript value as seen by the chart data pipeline.  `undefined` stands
for `undefined` (the result of a missing property access). -/
inductive JsonVal : Type where
  | undefined : JsonVal
  | null : JsonVal
  | bool : Bool → JsonVal
  | num : Rat → JsonVal
  | str : String → JsonVal
  | arr : List JsonVal → JsonVal
  | obj : List (String × JsonVal) → JsonVal

/-- Property access `v[k]`: on an object, the first binding for the key
(later spreads are modelled by prepending); on anything else `undefined`. -/
def getField : JsonVal → String → JsonVal
  | .obj fields, k =>
      match fields.lookup k with
      | some v => v
      | none => .undefined
  | _, _ => .undefined

/-- JavaScript truthiness: `undefined`, `null`, `false`, `0` and `""` are
falsy; every object and array is truthy. -/
def truthy : JsonVal → Bool
  | .undefined => false
  | .null => false
  | .bool b => b
  | .num n => n != 0
  | .str s => s != ""
  | .arr _ => true
  | .obj _ => true

/-- `typeof v === 'string'`. -/
def isStringVal : JsonVal → Bool
  | .str _ => true
  | _ => false

/-- `typeof v === 'number'`. -/
def isNumberVal : JsonVal → Bool
  | .num _ => true
  | _ => false

/-- `Array.isArray(v)`. -/
def isArrayVal : JsonVal → Bool
  | .arr _ => true
  | _ => false

/-- The element list of an array value (only used under an `Array.isArray`
guard, like the source). -/
def arrElems : JsonVal → List JsonVal
  | .arr xs => xs
  | _ => []

/-- The per-point predicate of the filter in `getStockChart`
(stockService.ts lines 42–55): the point must be truthy, `timestamp` a
string and the five OHLCV fields numbers.  The identical predicate is
repeated in the `useStockChart` hook's re-validation. -/
def isValidPoint (p : JsonVal) : Bool :=
  truthy p &&
  isStringVal (getField p "timestamp") &&
  isNumberVal (getField p "open") &&
  isNumberVal (getField p "high") &&
  isNumberVal (getField p "low") &&
  isNumberVal (getField p "close") &&
  isNumberVal (getField p "volume")

/-- The validator filter of the chart pipeline applied to a raw points
array: `points.filter(isValidPoint)`. -/
def stockChartFilter (points : List JsonVal) : List JsonVal :=
  points.filter isValidPoint

/-- Number of points dropped by one filter pass (the count of per-point
`console.warn` calls; the spec's `droppedCount`). -/
def droppedCount (points : List JsonVal) : Nat :=
  points.length - (stockChartFilter points).length

/-- The per-point rule in the words of the specification: `timestamp` is a
string and `open`, `high`, `low`, `close`, `volume` are all numbers. -/
def pointWellTyped (p : JsonVal) : Bool :=
  isStringVal (getField p "timestamp") &&
  isNumberVal (getField p "open") &&
  isNumberVal (getField p "high") &&
  isNumberVal (getField p "low") &&
  isNumberVal (getField p "close") &&
  isNumberVal (getField p "volume")

/-- On every value the code's predicate agrees with the spec's per-point
rule: a falsy value cannot have a string `timestamp` property anyway. -/
theorem isValidPoint_eq_pointWellTyped (p : JsonVal) :
    isValidPoint p = pointWellTyped p := by
  cases p with
  | undefined => rfl
  | null => rfl
  | bool b => cases b <;> rfl
  | num n =>
      by_cases h : n = 0 <;>
        simp [isValidPoint, pointWellTyped, truthy, getField, isStringVal, h]
  | str s =>
      by_cases h : s = "" <;>
        simp [isValidPoint, pointWellTyped, truthy, getField, isStringVal, h]
  | arr xs => rfl
  | obj fields => simp [isValidPoint, pointWellTyped, truthy]

theorem stockChartFilter_eq (points : List JsonVal) :
    stockChartFilter points = points.filter pointWellTyped := by
  unfold stockChartFilter
  induction points with
  | nil => rfl
  | cons p rest ih =>
      simp [List.filter_cons, isValidPoint_eq_pointWellTyped, ih]

/-- Length bookkeeping for one filter pass: what is not kept is counted. -/
theorem length_sub_filter (q : JsonVal → Bool) (l : List JsonVal) :
    l.length - (l.filter q).length = l.countP (fun p => !q p) := by
  induction l with
  | nil => rfl
  | cons a rest ih =>
      by_cases h : q a
      · simp [List.filter_cons, List.countP_cons, h, Nat.succ_sub_succ, ih]
      · have hle : (rest.filter q).length ≤ rest.length :=
          List.length_filter_le _ _
        simp only [List.filter_cons, List.countP_cons, h, Bool.false_eq_true,
          if_false, Bool.not_false, if_true, List.length_cons]
        omega

/-- Scenario 3, first point: a fully well-typed OHLCV point. -/
def scenarioPoint1 : JsonVal :=
  .obj [("timestamp", .str "t1"), ("open", .num 1), ("high", .num 2),
        ("low", .num 0.5), ("close", .num 1.5), ("volume", .num 100)]

/-- Scenario 3, second point: `open` is the string `"bad"`. -/
def scenarioPoint2 : JsonVal :=
  .obj [("timestamp", .str "t2"), ("open", .str "bad"), ("high", .num 2),
        ("low", .num 0.5), ("close", .num 1.5), ("volume", .num 100)]

/-- C5: the chart filter keeps exactly the points whose `timestamp` is a
string and whose `open`, `high`, `low`, `close`, `volume` are numbers,
with `droppedCount` counting the rejected points; on the two-point
scenario where the second point has `open = "bad"` it returns only the
first point and drops one, without raising an error (the filter is a total
function). -/
theorem stockChartFilter_spec :
    (∀ points : List JsonVal,
        stockChartFilter points = points.filter pointWellTyped ∧
        droppedCount points = points.countP (fun p => !pointWellTyped p)) ∧
    stockChartFilter [scenarioPoint1, scenarioPoint2] = [scenarioPoint1] ∧
    droppedCount [scenarioPoint1, scenarioPoint2] = 1 := by
  refine ⟨fun points => ⟨stockChartFilter_eq points, ?_⟩, rfl, rfl⟩
  have h : droppedCount points =
      points.length - (points.filter pointWellTyped).length := by
    unfold droppedCount
    rw [stockChartFilter_eq]
  rw [h, length_sub_filter]

/-- One filter pass is enough: filtering keeps only points satisfying the
predicate, so a second pass keeps all of them. -/
theorem filter_pass_idem (q : JsonVal → Bool) (l : List JsonVal) :
    (l.filter q).filter q = l.filter q := by
  induction l with
  | nil => rfl
  | cons a rest ih =>
      by_cases h : q a
      · simp [List.filter_cons, h, ih]
      · simp [List.filter_cons, h, ih]

/-- C8: point validation is idempotent — re-filtering the valid output of
a first filter pass returns the same array and drops nothing. -/
theorem stockChartFilter_idem :
    ∀ points : List JsonVal,
      stockChartFilter (stockChartFilter points) = stockChartFilter points ∧
      droppedCount (stockChartFilter points) = 0 := by
  intro points
  have hidem : stockChartFilter (stockChartFilter points) =
      stockChartFilter points := filter_pass_idem isValidPoint points
  refine ⟨hidem, ?_⟩
  unfold droppedCount
  rw [hidem, Nat.sub_self]

/-- `getStockChart` (stockService.ts lines 26–85): on a truthy envelope
(`response.data && response.data.success && response.data.data`) whose
nested `data.data` is truthy, a non-empty array, a fresh envelope is built
with the points filtered; on every other path the raw `response.data` is
returned unchanged. -/
def getStockChart (rd : JsonVal) : JsonVal :=
  if truthy rd && truthy (getField rd "success") && truthy (getField rd "data") then
    if truthy (getField (getField rd "data") "data") then
      match getField (getField rd "data") "data" with
      | .arr pts =>
          if 0 < pts.length then
            .obj [("success", getField rd "success"),
                  ("data", .obj
                    [("symbol", getField (getField rd "data") "symbol"),
                     ("period", getField (getField rd "data") "period"),
                     ("interval", getField (getField rd "data") "interval"),
                     ("data", .arr (pts.filter isValidPoint))]),
                  ("message", getField rd "message"),
                  ("timestamp", getField rd "timestamp")]
          else rd
      | _ => rd
    else rd
  else rd

/-- The outcome of the `useStockChart` hook's success branch: either a
points list committed via `setData`, or an error message committed via
`setError`. -/
inductive HookOutcome : Type where
  | ok : List JsonVal → HookOutcome
  | err : String → HookOutcome

/-- The hook's top-level shape check on a response
(`response && response.success && response.data && response.data.data &&
Array.isArray(response.data.data)`). -/
def topShapeOk (resp : JsonVal) : Bool :=
  truthy resp && truthy (getField resp "success") && truthy (getField resp "data") &&
  truthy (getField (getField resp "data") "data") &&
  isArrayVal (getField (getField resp "data") "data")

/-- The `useStockChart` hook applied to the value returned by
`getStockChart`: shape-valid responses commit the (re-validated) points,
everything else commits the error `"Invalid chart data structure"`. -/
def useStockChartOutcome (resp : JsonVal) : HookOutcome :=
  if topShapeOk resp then
    if (arrElems (getField (getField resp "data") "data")).length = 0 then
      .ok []
    else
      .ok ((arrElems (getField (getField resp "data") "data")).filter isValidPoint)
  else
    .err "Invalid chart data structure"

/-- `getStockChart` only rebuilds the envelope when the raw payload
already passes the hook's top-level shape check; on a shape-invalid
payload it is the identity. -/
theorem getStockChart_shape_invalid_id (raw : JsonVal)
    (h : topShapeOk raw = false) : getStockChart raw = raw := by
  unfold getStockChart
  by_cases h1 : (truthy raw && truthy (getField raw "success") &&
      truthy (getField raw "data")) = true
  · rw [if_pos h1]
    by_cases h2 : truthy (getField (getField raw "data") "data") = true
    · rw [if_pos h2]
      cases hinner : getField (getField raw "data") "data" with
      | arr pts =>
          exfalso
          have harr : isArrayVal (getField (getField raw "data") "data") = true := by
            rw [hinner]; rfl
          have htrue : topShapeOk raw = true := by
            unfold topShapeOk
            rw [h1, h2, harr]
            decide
          rw [h] at htrue
          exact Bool.false_ne_true htrue
      | undefined => rfl
      | null => rfl
      | bool b => rfl
      | num n => rfl
      | str s => rfl
      | obj fields => rfl
    · rw [if_neg h2]
  · rw [if_neg h1]

/-- C6: a fetched chart payload that fails top-level shape validation
(success not truthy, or the nested data object / points array missing or
not an array) is surfaced by the pipeline — `getStockChart` followed by
the `useStockChart` envelope check — as the error outcome
`"Invalid chart data structure"`; it is never committed as a success
value. -/
theorem invalid_envelope_is_error (raw : JsonVal)
    (h : topShapeOk raw = false) :
    useStockChartOutcome (getStockChart raw) = .err "Invalid chart data structure" := by
  rw [getStockChart_shape_invalid_id raw h]
  unfold useStockChartOutcome
  rw [if_neg (by simp [h])]

/-- Witness for C6 at the concrete payload `{ success: false }`. -/
theorem invalid_envelope_is_error_witness :
    topShapeOk (.obj [("success", .bool false)]) = false ∧
    useStockChartOutcome (getStockChart (.obj [("success", .bool false)])) =
      .err "Invalid chart data structure" :=
  ⟨rfl, invalid_envelope_is_error (.obj [("success", .bool false)]) rfl⟩

/-- Modelled from the claim's words: the freshly built envelope whose
`success`, `message`, `timestamp` and `data.symbol` / `data.period` /
`data.interval` fields equal those of the raw response, and whose
`data.data` is the subsequence of the raw points passing the per-point
type check. -/
def specRebuiltEnvelope (raw : JsonVal) : JsonVal :=
  .obj [("success", getField raw "success"),
        ("data", .obj
          [("symbol", getField (getField raw "data") "symbol"),
           ("period", getField (getField raw "data") "period"),
           ("interval", getField (getField raw "data") "interval"),
           ("data", .arr ((arrElems (getField (getField raw "data") "data")).filter
                            pointWellTyped))]),
        ("message", getField raw "message"),
        ("timestamp", getField raw "timestamp")]

/-- The claim C9 as stated: whenever the raw response contains a non-empty
inner points array, `getStockChart` returns the rebuilt envelope. -/
def claimC9At (raw : JsonVal) : Prop :=
  (∃ pts : List JsonVal,
      getField (getField raw "data") "data" = .arr pts ∧ pts ≠ []) →
  getStockChart raw = specRebuiltEnvelope raw

/-- A raw response with `success: false` but a non-empty inner array whose
single point is ill-typed (`open` is a string). -/
def rawFalseSuccess : JsonVal :=
  .obj [("success", .bool false),
        ("data", .obj
          [("symbol", .str "AAPL"), ("period", .str "1y"),
           ("interval", .str "1d"), ("data", .arr [scenarioPoint2])]),
        ("message", .str "ok"), ("timestamp", .str "now")]

/-- Counterexample to C9 as stated: with a falsy `success` the code takes
the fallthrough path and returns the raw response unchanged — the
ill-typed point is not filtered out — even though the inner array is
non-empty. -/
theorem getStockChart_counterexample : ¬ claimC9At rawFalseSuccess := by
  intro hclaim
  have heq : getStockChart rawFalseSuccess = specRebuiltEnvelope rawFalseSuccess :=
    hclaim ⟨[scenarioPoint2], rfl, by simp⟩
  have hlen := congrArg
    (fun j => (arrElems (getField (getField j "data") "data")).length) heq
  exact absurd hlen (by decide)

/-- C9 (amended): when the raw response is truthy with truthy `success`
and `data` fields and a non-empty inner points array, `getStockChart`
returns the freshly built envelope — same `success`, `message`,
`timestamp`, `data.symbol`, `data.period`, `data.interval`, and
`data.data` equal to the points passing the per-point type check, an
order-preserving subsequence of the raw points. -/
theorem getStockChart_rebuilds (raw : JsonVal) (pts : List JsonVal)
    (h1 : truthy raw = true)
    (h2 : truthy (getField raw "success") = true)
    (h3 : truthy (getField raw "data") = true)
    (h4 : getField (getField raw "data") "data" = .arr pts)
    (h5 : pts ≠ []) :
    getStockChart raw = specRebuiltEnvelope raw ∧
    List.Sublist (pts.filter pointWellTyped) pts := by
  constructor
  · have hlen : 0 < pts.length := List.length_pos.mpr h5
    have hfil : pts.filter isValidPoint = pts.filter pointWellTyped := by
      simpa [stockChartFilter] using stockChartFilter_eq pts
    have harrt : truthy (JsonVal.arr pts) = true := rfl
    simp [getStockChart, specRebuiltEnvelope, h1, h2, h3, h4, hlen, harrt,
      arrElems, hfil]
  · exact List.filter_sublist pts

/-- Witness for the amended C9 at a concrete valid envelope holding the
two scenario points. -/
theorem getStockChart_rebuilds_witness :
    getStockChart
        (.obj [("success", .bool true),
               ("data", .obj
                 [("symbol", .str "AAPL"), ("period", .str "1y"),
                  ("interval", .str "1d"),
                  ("data", .arr [scenarioPoint1, scenarioPoint2])]),
               ("message", .str "ok"), ("timestamp", .str "now")]) =
      specRebuiltEnvelope
        (.obj [("success", .bool true),
               ("data", .obj
                 [("symbol", .str "AAPL"), ("period", .str "1y"),
                  ("interval", .str "1d"),
                  ("data", .arr [scenarioPoint1, scenarioPoint2])]),
               ("message", .str "ok"), ("timestamp", .str "now")]) ∧
    List.Sublist ([scenarioPoint1, scenarioPoint2].filter pointWellTyped)
      [scenarioPoint1, scenarioPoint2] :=
  getStockChart_rebuilds _ [scenarioPoint1, scenarioPoint2]
    rfl rfl rfl rfl (by simp)

/-
  `retryApiRequest` (api.ts lines 160–181).  The request function is
  modelled as a map from attempt index to an `Except` outcome; delays
  (`setTimeout(delay * (i + 1))`) affect timing only, never control flow,
  and are not modelled.  The JS function either returns a value (`.ok`),
  throws the last caught error (`.error (some e)`), or — when the loop
  body never ran — throws the still-undefined `lastError`
  (`.error none`).
-/

/-- The retry loop: `k` iterations remain, `i` is the current attempt
index, the accumulator holds the last caught error (`none` while no
attempt has been made, mirroring the uninitialised `lastError`). -/
def retryLoop {ε α : Type} (f : Nat → Except ε α) :
    Nat → Nat → Option ε → Except (Option ε) α
  | 0, _, last => .error last
  | k + 1, i, _ =>
      match f i with
      | .ok a => .ok a
      | .error e => retryLoop f k (i + 1) (some e)

/-- `retryApiRequest(requestFn, maxRetries, delay)`: run the loop
`for (let i = 0; i < maxRetries; i++)` from attempt 0 with no error
caught yet. -/
def retryApiRequest {ε α : Type} (f : Nat → Except ε α) (maxRetries : Nat) :
    Except (Option ε) α :=
  retryLoop f maxRetries 0 none

/-- Number of invocations of the request function performed by the loop. -/
def retryCallsLoop {ε α : Type} (f : Nat → Except ε α) : Nat → Nat → Nat
  | 0, _ => 0
  | k + 1, i =>
      1 + match f i with
          | .ok _ => 0
          | .error _ => retryCallsLoop f k (i + 1)

/-- Total number of invocations of the request function made by
`retryApiRequest(f, maxRetries)`. -/
def retryCalls {ε α : Type} (f : Nat → Except ε α) (maxRetries : Nat) : Nat :=
  retryCallsLoop f maxRetries 0

/-- Counterexample to C1 as stated: with `maxRetries = 3` and a request
function that always rejects, the request function is invoked 3 times
(the loop runs `i = 0,1,2`), not 4 — `maxRetries` bounds the TOTAL number
of attempts, not the retries after an initial attempt. -/
theorem retryCalls_not_four :
    ¬ (retryCalls (fun _ => (Except.error "timeout" : Except String Unit)) 3 = 4) := by
  decide

/-- C1 (amended): with `maxRetries = 3`, a request function that fails on
every attempt is invoked exactly 3 times in total, and `retryApiRequest`
then throws the error of the last (third) attempt. -/
theorem retryApiRequest_always_fails {ε α : Type}
    (f : Nat → Except ε α) (g : Nat → ε) (h : ∀ i, f i = .error (g i)) :
    retryCalls f 3 = 3 ∧ retryApiRequest f 3 = .error (some (g 2)) := by
  constructor
  · simp [retryCalls, retryCallsLoop, h]
  · simp [retryApiRequest, retryLoop, h]

/-- Witness for the amended C1 with the constant timeout rejection. -/
theorem retryApiRequest_always_fails_witness :
    retryCalls (fun _ => (Except.error "timeout" : Except String Unit)) 3 = 3 ∧
    retryApiRequest (fun _ => (Except.error "timeout" : Except String Unit)) 3 =
      .error (some "timeout") :=
  retryApiRequest_always_fails _ (fun _ => "timeout") (fun _ => rfl)

/-- C10: with `maxRetries = 0` the loop body never executes — the request
function is never invoked — and `throw lastError!` throws the
still-undefined `lastError` (modelled `.error none`, distinct from every
`.error (some e)` thrown after a real attempt) instead of returning. -/
theorem retryApiRequest_zero {ε α : Type} (f : Nat → Except ε α) :
    retryCalls f 0 = 0 ∧ retryApiRequest f 0 = .error none :=
  ⟨rfl, rfl⟩

/-
  The axios response interceptor (api.ts lines 47–74).  A timed-out
  response (`error.code === 'ECONNABORTED'` or a message containing
  `'timeout'`) whose original request config is present is re-issued via
  `api.request(originalRequest)` after a 3000 ms delay; the re-issued
  request passes through the SAME interceptor, and no attempt counter is
  attached to it.  A run of the transport layer is modelled by the list of
  successive underlying attempt outcomes.
-/

/-- Substring test on character lists (JavaScript
`String.prototype.includes`). -/
def charsHaveSub (needle : List Char) : List Char → Bool
  | [] => needle.isEmpty
  | c :: rest => needle.isPrefixOf (c :: rest) || charsHaveSub needle rest

/-- `hay.includes(needle)`. -/
def strIncludes (needle hay : String) : Bool :=
  charsHaveSub needle.data hay.data

/-- The interceptor's timeout test:
`error.code === 'ECONNABORTED' || error.message.includes('timeout')`
(`code` may be absent, modelled by `none`). -/
def isTimeoutAxiosError (code : Option String) (msg : String) : Bool :=
  code == some "ECONNABORTED" || strIncludes "timeout" msg

/-- One underlying attempt outcome seen by the response interceptor. -/
inductive AxiosOutcome : Type where
  | ok : AxiosOutcome
  | fail : Option String → String → Bool → AxiosOutcome

/-- Number of underlying attempts issued for one original request, given
the successive outcomes: a timeout error with a config present triggers a
further attempt, anything else stops. -/
def interceptorAttempts : List AxiosOutcome → Nat
  | [] => 0
  | .ok :: _ => 1
  | .fail code msg hasCfg :: rest =>
      if isTimeoutAxiosError code msg && hasCfg then
        1 + interceptorAttempts rest
      else 1

/-- Total delay (ms) inserted by the interceptor before re-issues. -/
def interceptorDelay : List AxiosOutcome → Nat
  | [] => 0
  | .ok :: _ => 0
  | .fail code msg hasCfg :: rest =>
      if isTimeoutAxiosError code msg && hasCfg then
        3000 + interceptorDelay rest
      else 0

/-- Counterexample to C7 as stated: when the first retry itself times out,
the interceptor fires again — two timeouts followed by a success cost 3
underlying attempts, exceeding the claimed bound of one retry (2 attempts)
per original request. -/
theorem interceptorAttempts_unbounded :
    ¬ (∀ outcomes : List AxiosOutcome, interceptorAttempts outcomes ≤ 2) := by
  intro h
  have h3 := h [.fail (some "ECONNABORTED") "timeout of 30000ms exceeded" true,
                .fail (some "ECONNABORTED") "timeout of 30000ms exceeded" true,
                .ok]
  revert h3
  decide

/-- C7 (amended): each timed-out response with a config present is retried
once after a 3-second delay with no attempt counter attached, so `k`
consecutive timeouts followed by a success cost `k + 1` underlying
attempts and `3000·k` ms of interceptor delay — the retries are bounded
only by how long the timeouts persist, not by a per-request cap. -/
theorem interceptor_retries_per_timeout (k : Nat) (code : Option String)
    (msg : String) (h : isTimeoutAxiosError code msg = true) :
    interceptorAttempts (List.replicate k (.fail code msg true) ++ [.ok]) = k + 1 ∧
    interceptorDelay (List.replicate k (.fail code msg true) ++ [.ok]) = 3000 * k := by
  induction k with
  | zero => simp [interceptorAttempts, interceptorDelay]
  | succ n ih =>
      obtain ⟨ih1, ih2⟩ := ih
      simp only [List.replicate_succ, List.cons_append, interceptorAttempts,
        interceptorDelay, h, Bool.and_true, if_true, List.append_eq]
      rw [ih1, ih2]
      omega

/-- Witness for the amended C7 at two consecutive `ECONNABORTED`
timeouts. -/
theorem interceptor_retries_per_timeout_witness :
    interceptorAttempts
        (List.replicate 2 (.fail (some "ECONNABORTED") "timeout" true) ++ [.ok]) =
      2 + 1 ∧
    interceptorDelay
        (List.replicate 2 (.fail (some "ECONNABORTED") "timeout" true) ++ [.ok]) =
      3000 * 2 :=
  interceptor_retries_per_timeout 2 (some "ECONNABORTED") "timeout" rfl

/-
  The in-memory cache of `TopStocksGrid.tsx`.  React state updates are
  modelled as taking effect synchronously (the reading most favourable to
  the specification's claims); `Date.now()` values and `Date` timestamps
  are milliseconds as `Nat`.  An asynchronous fetch is split into its
  synchronous start (the handler code up to the `await`) and a separate
  completion event; the multiset of outstanding fetches is tracked
  alongside the component state.
-/

/-- One entry of the `topStocks` listing. -/
structure TopStock : Type where
  symbol : String
  name : String
  price : Rat
  change : Rat
  changePercent : Rat
  marketCap : Rat
  volume : Rat
deriving DecidableEq

/-- `CacheData`: `{ data, timestamp, loading }`. -/
structure CacheData : Type where
  data : List TopStock
  timestamp : Nat
  loading : Bool
deriving DecidableEq

/-- The component's React state. -/
structure GridState : Type where
  topStocks : List TopStock
  loading : Bool
  error : Option String
  selectedIndex : String
  lastUpdated : Option Nat
  cache : List (String × CacheData)
deriving DecidableEq

/-- `CACHE_DURATION = 5 * 60 * 1000`. -/
def CACHE_DURATION : Int := 5 * 60 * 1000

/-- `isCacheValid(cacheData)`: the entry's age is below the TTL.  No field
other than the timestamp is consulted. -/
def isCacheValid (now : Nat) (cd : CacheData) : Bool :=
  (now : Int) - (cd.timestamp : Int) < CACHE_DURATION

/-- `handleIndexChange(indexName)` up to the `await`: select the index,
clear the error; on a valid cached entry serve it (no fetch); otherwise
store the `{data: [], timestamp: now, loading: true}` placeholder and
start a fetch.  The boolean reports whether a network fetch was started. -/
def handleIndexChange (now : Nat) (indexName : String) (s : GridState) :
    GridState × Bool :=
  let s1 : GridState :=
    { s with selectedIndex := indexName, error := none }
  match s1.cache.lookup indexName with
  | some cd =>
      if isCacheValid now cd then
        ({ s1 with topStocks := cd.data, lastUpdated := some cd.timestamp,
                   loading := false }, false)
      else
        ({ s1 with cache := (indexName, ⟨[], now, true⟩) :: s1.cache }, true)
  | none => ({ s1 with cache := (indexName, ⟨[], now, true⟩) :: s1.cache }, true)

/-- The synchronous prefix of `fetchStocks`: `setLoading(true)`,
`setError(null)`. -/
def fetchStart (s : GridState) : GridState :=
  { s with loading := true, error := none }

/-- How one network fetch ends: a response with `success: true`, a
response with falsy `success`, or a thrown error with a message. -/
inductive FetchOutcome : Type where
  | ok : List TopStock → FetchOutcome
  | notSuccess : FetchOutcome
  | exn : String → FetchOutcome
deriving DecidableEq

/-- The Korean timeout message substituted by `fetchStocks`. -/
def timeoutNotice : String :=
  "데이터 로딩 시간이 초과되었습니다. 잠시 후 다시 시도해주세요."

/-- The error message committed by the catch branch of `fetchStocks`. -/
def fetchErrorMessage (msg : String) : String :=
  if strIncludes "timeout" msg then timeoutNotice else msg

/-- The rest of `fetchStocks` after the response arrives: on success
commit the stocks, the update time and a fresh non-loading cache entry;
on a non-success response or a thrown error set the error message; in all
cases `finally` clears the loading flag. -/
def fetchComplete (now : Nat) (indexName : String) (o : FetchOutcome)
    (s : GridState) : GridState :=
  match o with
  | .ok stocks =>
      { s with topStocks := stocks, lastUpdated := some now,
               cache := (indexName, ⟨stocks, now, false⟩) :: s.cache,
               loading := false }
  | .notSuccess => { s with error := some "Failed to fetch stocks", loading := false }
  | .exn msg => { s with error := some (fetchErrorMessage msg), loading := false }

/-- Component state plus the outstanding fetches (by index name). -/
structure SysState : Type where
  grid : GridState
  inflight : List String
deriving DecidableEq

/-- User-visible events of the grid. -/
inductive GridEvent : Type where
  | indexChange : String → Nat → GridEvent
  | manualRefresh : Nat → GridEvent
  | complete : String → Nat → FetchOutcome → GridEvent
deriving DecidableEq

/-- One event step: an index change may start a fetch; a manual refresh
(`handleManualRefresh`) starts one unconditionally for the selected
index; a completion applies `fetchComplete` and retires one outstanding
fetch. -/
def gridStep : GridEvent → SysState → SysState
  | .indexChange k now, ⟨g, fl⟩ =>
      match handleIndexChange now k g with
      | (g1, true) => ⟨fetchStart g1, k :: fl⟩
      | (g1, false) => ⟨g1, fl⟩
  | .manualRefresh _, ⟨g, fl⟩ => ⟨fetchStart g, g.selectedIndex :: fl⟩
  | .complete k now o, ⟨g, fl⟩ => ⟨fetchComplete now k o g, fl.erase k⟩

/-- Run a sequence of events. -/
def runTrace (events : List GridEvent) (s : SysState) : SysState :=
  events.foldl (fun st e => gridStep e st) s

/-- The grid component's initial state (mount). -/
def initialSys : SysState :=
  ⟨⟨[], false, none, "all", none, []⟩, []⟩

/-- A state in which the entry for `"all"` is the in-flight loading
placeholder stored by `handleIndexChange` at time 1000. -/
def loadingPlaceholderState : GridState :=
  ⟨[], true, none, "all", none, [("all", ⟨[], 1000, true⟩)]⟩

/-- Counterexample to C3 as stated: the cache check consults only the
entry's age, never a Ready/loading state — at time 2000 the fresh loading
placeholder (stored at 1000, `loading = true`) suppresses the network
call, so "no call iff entry exists, is Ready and is fresh" fails. -/
theorem cache_check_ignores_loading :
    ¬ (∀ (now : Nat) (k : String) (s : GridState),
        (handleIndexChange now k s).2 = false ↔
        ∃ cd : CacheData, s.cache.lookup k = some cd ∧ cd.loading = false ∧
          (now : Int) - (cd.timestamp : Int) < CACHE_DURATION) := by
  intro h
  have h2 := (h 2000 "all" loadingPlaceholderState).mp (by decide)
  obtain ⟨cd, hcd, hload, _⟩ := h2
  have hval : loadingPlaceholderState.cache.lookup "all" =
      some ⟨[], 1000, true⟩ := rfl
  rw [hval] at hcd
  rw [← Option.some.inj hcd] at hload
  exact absurd hload (by decide)

/-- C3 (amended): a non-forced index change issues no network call iff a
cached entry for the key exists whose age `now - timestamp` is strictly
below the 5-minute TTL — regardless of the entry's `loading` flag, so a
loading placeholder does suppress the call. -/
theorem handleIndexChange_no_fetch_iff (now : Nat) (k : String) (s : GridState) :
    (handleIndexChange now k s).2 = false ↔
    ∃ cd : CacheData, s.cache.lookup k = some cd ∧
      (now : Int) - (cd.timestamp : Int) < CACHE_DURATION := by
  unfold handleIndexChange
  cases hl : s.cache.lookup k with
  | none => simp [hl]
  | some cd =>
      by_cases hv : isCacheValid now cd = true
      · have hfresh : (now : Int) - (cd.timestamp : Int) < CACHE_DURATION := by
          simpa [isCacheValid] using hv
        simp [hl, hv, hfresh]
      · have hstale : ¬ ((now : Int) - (cd.timestamp : Int) < CACHE_DURATION) := by
          simpa [isCacheValid] using hv
        simp [hl, hv, hstale]

/-- Counterexample to C2 as stated: from the freshly mounted grid, an
index change that misses the cache starts a fetch, and a manual refresh
issued while it is still outstanding starts a second one unconditionally —
two fetches for the same key are then outstanding at once. -/
theorem manual_refresh_stacks_fetch :
    ¬ (∀ (events : List GridEvent) (k : String),
        (runTrace events initialSys).inflight.count k ≤ 1) := by
  intro h
  have h2 := h [.indexChange "all" 1000, .manualRefresh 1001] "all"
  revert h2
  decide

/-- C2 (amended): a second non-forced index change for a key whose cache
entry is the still-fresh in-flight loading placeholder starts no new
network call and leaves the outstanding-fetch list unchanged, but the
second caller is served the placeholder's empty payload rather than the
in-flight fetch's eventual result (a forced manual refresh, by contrast,
always starts a fetch — see the counterexample). -/
theorem inflight_placeholder_coalesces (s : GridState) (k : String)
    (cd : CacheData) (now : Nat) (fl : List String)
    (h1 : s.cache.lookup k = some cd) (h2 : cd.loading = true)
    (h3 : (now : Int) - (cd.timestamp : Int) < CACHE_DURATION) :
    (handleIndexChange now k s).2 = false ∧
    (handleIndexChange now k s).1.topStocks = cd.data ∧
    gridStep (.indexChange k now) ⟨s, fl⟩ = ⟨(handleIndexChange now k s).1, fl⟩ := by
  have hv : isCacheValid now cd = true := by
    simpa [isCacheValid] using h3
  have hpair : handleIndexChange now k s =
      ({ s with selectedIndex := k, error := none, topStocks := cd.data,
                lastUpdated := some cd.timestamp, loading := false }, false) := by
    unfold handleIndexChange
    simp [h1, hv]
  refine ⟨by rw [hpair], by rw [hpair], ?_⟩
  show (match handleIndexChange now k s with
        | (g1, true) => SysState.mk (fetchStart g1) (k :: fl)
        | (g1, false) => SysState.mk g1 fl) = _
  rw [hpair]

/-- Witness for the amended C2: the fresh loading placeholder state at
time 2000. -/
theorem inflight_placeholder_coalesces_witness :
    (handleIndexChange 2000 "all" loadingPlaceholderState).2 = false ∧
    (handleIndexChange 2000 "all" loadingPlaceholderState).1.topStocks = [] ∧
    gridStep (.indexChange "all" 2000) ⟨loadingPlaceholderState, ["all"]⟩ =
      ⟨(handleIndexChange 2000 "all" loadingPlaceholderState).1, ["all"]⟩ :=
  inflight_placeholder_coalesces loadingPlaceholderState "all"
    ⟨[], 1000, true⟩ 2000 ["all"] rfl rfl (by decide)

/-- A stale Ready-style entry: stocks fetched at time 0 with the loading
flag clear. -/
def staleReadyStock : TopStock := ⟨"AAPL", "Apple Inc.", 100, 1, 1, 3000, 10⟩

/-- A grid state whose `"all"` entry holds a last good payload fetched at
time 0 (now stale against the 5-minute TTL). -/
def staleReadyState : GridState :=
  ⟨[staleReadyStock], false, none, "all", some 0,
   [("all", ⟨[staleReadyStock], 0, false⟩)]⟩

/-- Counterexample to C4 as stated: a stale-entry index change followed by
a failed fetch does NOT retain the prior good payload — the refetch
already overwrote the entry with the empty loading placeholder, and the
failure path never restores it. -/
theorem fetch_failure_destroys_payload :
    ¬ (∀ (s : GridState) (k : String) (t1 t2 : Nat) (msg : String) (cd : CacheData),
        s.cache.lookup k = some cd → cd.loading = false →
        ((runTrace [.indexChange k t1, .complete k t2 (.exn msg)]
            ⟨s, []⟩).grid.cache.lookup k).map CacheData.data = some cd.data) := by
  intro h
  have h2 := h staleReadyState "all" 400000 400001 "boom"
    ⟨[staleReadyStock], 0, false⟩ rfl rfl
  revert h2
  decide

/-- The state left behind by a cache-missing `handleIndexChange`: index
selected, error cleared, empty loading placeholder prepended to the
cache. -/
def placeholderInserted (s : GridState) (k : String) (now : Nat) : GridState :=
  { s with selectedIndex := k, error := none,
           cache := (k, ⟨[], now, true⟩) :: s.cache }

/-- When `handleIndexChange` starts a fetch, the state it leaves behind is
the input state with the index selected, the error cleared and the empty
loading placeholder prepended to the cache. -/
theorem handleIndexChange_miss_state (now : Nat) (k : String) (s : GridState)
    (h : (handleIndexChange now k s).2 = true) :
    (handleIndexChange now k s).1 = placeholderInserted s k now := by
  unfold placeholderInserted
  unfold handleIndexChange at h ⊢
  cases hl : s.cache.lookup k with
  | none => simp [hl]
  | some cd =>
      by_cases hv : isCacheValid now cd = true
      · simp [hl, hv] at h
      · simp [hl, hv]

/-- C4 (amended): when a non-forced index change misses the TTL check, the
entry for the key is overwritten with the empty loading placeholder before
the network call, and a fetch failure then leaves that placeholder in
place — the error lands only in the component's error state and the
last good payload for the key is already gone. -/
theorem fetch_failure_leaves_placeholder (s : GridState) (k : String)
    (t1 t2 : Nat) (msg : String)
    (hmiss : (handleIndexChange t1 k s).2 = true) :
    ((runTrace [.indexChange k t1, .complete k t2 (.exn msg)]
        ⟨s, []⟩).grid.cache.lookup k = some ⟨[], t1, true⟩) ∧
    (runTrace [.indexChange k t1, .complete k t2 (.exn msg)]
        ⟨s, []⟩).grid.error = some (fetchErrorMessage msg) ∧
    (runTrace [.indexChange k t1, .complete k t2 (.exn msg)]
        ⟨s, []⟩).grid.loading = false := by
  have hstate := handleIndexChange_miss_state t1 k s hmiss
  rcases hsplit : handleIndexChange t1 k s with ⟨g1, b⟩
  rw [hsplit] at hmiss hstate
  have hb : b = true := by simpa using hmiss
  have hg : g1 = placeholderInserted s k t1 := by
    simpa [placeholderInserted] using hstate
  subst hb
  subst hg
  refine ⟨?_, ?_, ?_⟩ <;>
    simp [runTrace, gridStep, hsplit, fetchStart, fetchComplete,
      placeholderInserted, List.lookup]

/-- Witness for the amended C4 at the concrete stale state. -/
theorem fetch_failure_leaves_placeholder_witness :
    ((runTrace [.indexChange "all" 400000, .complete "all" 400001 (.exn "boom")]
        ⟨staleReadyState, []⟩).grid.cache.lookup "all" = some ⟨[], 400000, true⟩) ∧
    (runTrace [.indexChange "all" 400000, .complete "all" 400001 (.exn "boom")]
        ⟨staleReadyState, []⟩).grid.error = some (fetchErrorMessage "boom") ∧
    (runTrace [.indexChange "all" 400000, .complete "all" 400001 (.exn "boom")]
        ⟨staleReadyState, []⟩).grid.loading = false :=
  fetch_failure_leaves_placeholder staleReadyState "all" 400000 400001 "boom" (by decide)
